import Mathlib

set_option maxRecDepth 8192

/-!
Shallow embedding of `src/index.js` of `dump-sparql-graphstore-pipeline`:
a one-shot ETL pipeline that resolves configuration from environment
variables, fetches RDF from a source URL with content negotiation, parses
it into an in-memory quad store, evaluates a SPARQL query, serializes the
result quads to Turtle, and writes the document to a graph store endpoint
with PUT (replace) or POST (append).

The external collaborators (the `rdf-parse` parser, the Comunica query
engine, the `n3` Turtle writer) and the two HTTP responses are inputs of
the model (fields of `World`); the pipeline orchestration itself is
translated line by line from `src/index.js`.  The observable behaviour of
a run is the list of HTTP requests and collaborator invocations it makes
(`Event` trace) together with its outcome (`Except PipelineError Unit`).
-/

namespace Pipeline

/-! ### JavaScript string primitives

The source manipulates strings with `trim()`, `toUpperCase()`,
`split(";")[0]` and `[..].join(", ")`.  They are modelled on the
character list underlying a Lean `String` so that every definition
reduces in the kernel. -/

/-- Whitespace recognized by JavaScript `String.prototype.trim` (the ASCII
part, which is all the source ever feeds it). -/
def isJsWhitespace (c : Char) : Bool :=
  c = ' ' || c = '\t' || c = '\n' || c = '\r'

/-- JavaScript `s.trim()`: strip leading and trailing whitespace. -/
def jsTrim (s : String) : String :=
  ⟨((s.data.dropWhile isJsWhitespace).reverse.dropWhile isJsWhitespace).reverse⟩

/-- JavaScript `s.toUpperCase()` (ASCII; the source only compares against
`"PUT"` and `"POST"`). -/
def jsToUpper (s : String) : String :=
  ⟨s.data.map Char.toUpper⟩

/-- JavaScript `s.split(";")[0]`: the prefix of `s` before its first `';'`
(the whole of `s` when it has none).  For a one-character separator this
is exactly what `split` puts at index 0. -/
def beforeSemicolon (s : String) : String :=
  ⟨s.data.takeWhile (fun c => c ≠ ';')⟩

/-- JavaScript `list.join(sep)`. -/
def joinSep (sep : String) : List String → String
  | [] => ""
  | [x] => x
  | x :: y :: xs => x ++ sep ++ joinSep sep (y :: xs)

/-! ### Data model -/

/-- An RDF quad: subject, predicate, object, graph (structural equality,
as for the value-type quads of the spec).  The pipeline never inspects
quad components, so their representation is opaque strings. -/
structure Quad where
  subj : String
  pred : String
  obj : String
  graph : String
deriving DecidableEq, Repr

/-- The process environment: an association of variable names to values.
`process.env[name]` is `Env.lookup name`. -/
abbrev Env := List (String × String)

def Env.lookup (env : Env) (name : String) : Option String :=
  List.lookup name env

/-- The error taxonomy of the spec (§7).  The source throws plain
`Error`s; each constructor here records which stage threw (which is
determined by the program point of the `throw`) and the exact message
string the source builds. -/
inductive PipelineError where
  | configError (msg : String)
  | fetchError (msg : String)
  | parseError (msg : String)
  | queryError (msg : String)
  | publishError (msg : String)
deriving DecidableEq, Repr

def PipelineError.isConfigError : PipelineError → Bool
  | .configError _ => true
  | _ => false

def PipelineError.isPublishError : PipelineError → Bool
  | .publishError _ => true
  | _ => false

/-- The response of the source `fetch`: the status line, the value of the
`content-type` header (`none` when absent), and the body text. -/
structure Response where
  status : Nat
  statusText : String
  contentType : Option String
  body : String
deriving DecidableEq, Repr

/-- WHATWG `res.ok`: status in the inclusive range 200–299. -/
def Response.ok (r : Response) : Bool :=
  200 ≤ r.status && r.status ≤ 299

instance {ε α : Type} [DecidableEq ε] [DecidableEq α] : DecidableEq (Except ε α) := fun x y =>
  match x, y with
  | .ok a, .ok b => if h : a = b then .isTrue (by rw [h]) else .isFalse (by simp [h])
  | .error a, .error b => if h : a = b then .isTrue (by rw [h]) else .isFalse (by simp [h])
  | .ok _, .error _ => .isFalse (by simp)
  | .error _, .ok _ => .isFalse (by simp)

/-- The response of the publish `fetch`.  `textResult` models
`writeRes.text()`: `.ok body` when the body is retrievable, `.error e`
when reading it rejects. -/
structure WriteResponse where
  status : Nat
  statusText : String
  textResult : Except String String
deriving DecidableEq, Repr

def WriteResponse.ok (r : WriteResponse) : Bool :=
  200 ≤ r.status && r.status ≤ 299

/-- An outbound HTTP request as the pipeline issues it. -/
structure Request where
  url : String
  method : String
  headers : List (String × String)
  body : Option String
deriving DecidableEq, Repr

/-- Observable events of a run: the two HTTP requests and the two
collaborator invocations (parser, query engine). -/
inductive Event where
  | fetchReq (r : Request)
  | parseCall (contentType : String) (baseIRI : String)
  | queryCall (query : String)
  | publishReq (r : Request)
deriving DecidableEq, Repr

/-- The write method, `METHOD` after validation: `REPLACE` is the
source's `"PUT"`, `APPEND` its `"POST"` (spec §3). -/
inductive WriteMethod where
  | REPLACE
  | APPEND
deriving DecidableEq, Repr

/-- The HTTP verb the source stores for each method. -/
def WriteMethod.httpVerb : WriteMethod → String
  | .REPLACE => "PUT"
  | .APPEND => "POST"

/-- The resolved configuration (spec §3). -/
structure Configuration where
  sourceUrl : String
  query : String
  storeUrl : String
  writeMethod : WriteMethod
deriving DecidableEq, Repr

/-- The inputs of one run: the environment, the two HTTP responses, and
the behaviour of the three external collaborators.  `parse` receives
content type, base IRI and body; `query` receives the query text and the
store contents; `serialize` is the Turtle writer (total, per the
collaborator contract of spec §4.5: any finite quad sequence, the empty
one included, serializes to a Turtle document). -/
structure World where
  env : Env
  fetchResponse : Response
  parse : String → String → String → Except String (List Quad)
  query : String → List Quad → Except String (List Quad)
  serialize : List Quad → String
  writeResponse : WriteResponse

/-! ### Error messages built by the source -/

/-- Message `Missing env var: ${name}` (src/index.js line 20). -/
def missingEnvMsg (name : String) : String :=
  "Missing env var: " ++ name

/-- Message `METHOD must be PUT or POST (got: ${METHOD})` (line 74). -/
def methodErrorMsg (m : String) : String :=
  "METHOD must be PUT or POST (got: " ++ m ++ ")"

/-- Message `Failed to fetch RDF: ${res.status} ${res.statusText} (${url})`
(line 42). -/
def fetchErrorMsg (status : Nat) (statusText url : String) : String :=
  "Failed to fetch RDF: " ++ toString status ++ " " ++ statusText ++ " (" ++ url ++ ")"

/-- Message `Failed to write to STORE: ${writeRes.status} ${writeRes.statusText}\n${body}`
(line 105). -/
def publishErrorMsg (status : Nat) (statusText body : String) : String :=
  "Failed to write to STORE: " ++ toString status ++ " " ++ statusText ++ "\n" ++ body

/-! ### Translation of src/index.js -/

/-- Translation of `mustEnv` (lines 18–22): `const v = process.env[name]; if (!v ||
!v.trim()) throw ...; return v`.  `!v` is true for an absent variable and
for the empty string; `!v.trim()` for a blank one. -/
def mustEnv (env : Env) (name : String) : Except PipelineError String :=
  match env.lookup name with
  | none => .error (.configError (missingEnvMsg name))
  | some v => if jsTrim v = "" then .error (.configError (missingEnvMsg name)) else .ok v

/-- The Accept list of `fetchRdfToStore` (lines 28–37). -/
def acceptList : List String :=
  [ "text/turtle"
  , "application/n-triples"
  , "application/ld+json"
  , "application/rdf+xml"
  , "application/trig"
  , "application/n-quads"
  , "application/octet-stream;q=0.1"
  , "*/*;q=0.01" ]

/-- The joined Accept header, `[..].join(", ")` (line 37). -/
def acceptHeader : String :=
  joinSep ", " acceptList

/-- The source fetch request (lines 26–39): `fetch(url, {headers:
{accept: ...}})` — no `method` option, so the WHATWG default GET. -/
def fetchRequest (url : String) : Request :=
  { url := url, method := "GET", headers := [("accept", acceptHeader)], body := none }

/-- Content-type negotiation, `res.headers.get("content-type")?.split(";")[0]?.trim()
|| "text/turtle"` (line 49): `none` when the header is absent; otherwise the
prefix before the first `';'`, trimmed, with `"text/turtle"` substituted
when that is empty (falsy). -/
def negotiateContentType : Option String → String
  | none => "text/turtle"
  | some h =>
    let v := jsTrim (beforeSemicolon h)
    if v = "" then "text/turtle" else v

/-- The publish request (lines 95–101): `fetch(STORE, {method: METHOD,
headers: {"content-type": "text/turtle"}, body: ttl})`. -/
def publishRequest (storeUrl : String) (m : WriteMethod) (ttl : String) : Request :=
  { url := storeUrl, method := m.httpVerb
  , headers := [("content-type", "text/turtle")], body := some ttl }

/-- Fallback `process.env.METHOD || "POST"` (line 72): the JavaScript `||`
falls back on the default for an absent variable and for the (falsy)
empty string. -/
def methodOrDefault : Option String → String
  | none => "POST"
  | some v => if v = "" then "POST" else v

/-- Configuration resolution: the prefix of `main` before any network
activity (lines 66–75).  Reads `URL`, `Query`, `STORE` through `mustEnv`
in that order, then validates `METHOD` against `["PUT", "POST"]` after
upper-casing. -/
def resolveConfig (env : Env) : Except PipelineError Configuration :=
  match mustEnv env "URL" with
  | .error e => .error e
  | .ok url =>
    match mustEnv env "Query" with
    | .error e => .error e
    | .ok q =>
      match mustEnv env "STORE" with
      | .error e => .error e
      | .ok store =>
        let m := jsToUpper (methodOrDefault (env.lookup "METHOD"))
        if m = "PUT" then
          .ok { sourceUrl := url, query := q, storeUrl := store, writeMethod := .REPLACE }
        else if m = "POST" then
          .ok { sourceUrl := url, query := q, storeUrl := store, writeMethod := .APPEND }
        else
          .error (.configError (methodErrorMsg m))

/-- The stages of `main` after configuration (lines 77–108), as a
function from the run's inputs and resolved configuration to the event
trace and outcome:

* issue the source GET (`fetchRdfToStore`, lines 26–43), failing with the
  fetch error when `!res.ok`;
* hand body, negotiated content type and base IRI to the parser
  (line 50), collect the quads, build the store — `new Store(quads)`
  deduplicates identical quads (set-like semantics), hence `eraseDups`;
* hand query text and store to the query engine (lines 85–87) and
  collect the result quads;
* serialize the result quads to Turtle (`quadsToTurtle`, lines 57–63)
  and issue the publish request;
* on `!writeRes.ok` read the response body — an empty string when
  `writeRes.text()` rejects (`.catch(() => "")`, line 104) — and fail
  with the publish error. -/
def runStages (w : World) (cfg : Configuration) : List Event × Except PipelineError Unit :=
  let freq := fetchRequest cfg.sourceUrl
    let res := w.fetchResponse
    if res.ok = false then
      ([.fetchReq freq], .error (.fetchError (fetchErrorMsg res.status res.statusText cfg.sourceUrl)))
    else
      let ct := negotiateContentType res.contentType
      match w.parse ct cfg.sourceUrl res.body with
      | .error msg =>
        ([.fetchReq freq, .parseCall ct cfg.sourceUrl], .error (.parseError msg))
      | .ok quads =>
        let store := quads.eraseDups
        match w.query cfg.query store with
        | .error msg =>
          ([.fetchReq freq, .parseCall ct cfg.sourceUrl, .queryCall cfg.query],
           .error (.queryError msg))
        | .ok resultQuads =>
          let ttl := w.serialize resultQuads
          let preq := publishRequest cfg.storeUrl cfg.writeMethod ttl
          let wres := w.writeResponse
          let trace := [.fetchReq freq, .parseCall ct cfg.sourceUrl,
                        .queryCall cfg.query, .publishReq preq]
          if wres.ok = false then
            let body := match wres.textResult with
              | .ok t => t
              | .error _ => ""
            (trace, .error (.publishError (publishErrorMsg wres.status wres.statusText body)))
          else
            (trace, .ok ())

/-- Entry point: configuration resolution (lines 66–75) happens before
any stage; on its failure nothing else runs. -/
def run (w : World) : List Event × Except PipelineError Unit :=
  match resolveConfig w.env with
  | .error e => ([], .error e)
  | .ok cfg => runStages w cfg

/-- The publish requests occurring in a trace. -/
def publishReqs : List Event → List Request
  | [] => []
  | .publishReq r :: t => r :: publishReqs t
  | _ :: t => publishReqs t

/-- Whether a trace contains a parser invocation. -/
def hasParseCall : List Event → Bool
  | [] => false
  | .parseCall _ _ :: _ => true
  | _ :: t => hasParseCall t

/-- Whether an environment value is absent or blank, the condition on
which `mustEnv` throws. -/
def absentOrBlank (env : Env) (name : String) : Bool :=
  match env.lookup name with
  | none => true
  | some v => jsTrim v = ""

/-- A necessary condition for a string to be an absolute URI: RFC 3986
requires `scheme ":" hier-part`, so every absolute URI contains a colon. -/
def containsColon (s : String) : Bool :=
  s.data.contains ':'

/-! ### Helper lemmas about configuration resolution -/

theorem mustEnv_error_msg (env : Env) (name : String) (e : PipelineError)
    (h : mustEnv env name = .error e) : e = .configError (missingEnvMsg name) := by
  unfold mustEnv at h
  split at h
  · injection h with h2
    exact h2.symm
  · split at h
    · injection h with h2
      exact h2.symm
    · exact Except.noConfusion h

theorem mustEnv_error_of_blank (env : Env) (name : String)
    (h : absentOrBlank env name = true) :
    mustEnv env name = .error (.configError (missingEnvMsg name)) := by
  unfold absentOrBlank at h
  unfold mustEnv
  cases hl : env.lookup name with
  | none => rfl
  | some v =>
    rw [hl] at h
    replace h : decide (jsTrim v = "") = true := h
    rw [decide_eq_true_eq] at h
    show (if jsTrim v = "" then
        Except.error (PipelineError.configError (missingEnvMsg name))
      else Except.ok v) =
      Except.error (PipelineError.configError (missingEnvMsg name))
    rw [if_pos h]

theorem mustEnv_ok_of_not_blank (env : Env) (name : String)
    (h : absentOrBlank env name = false) :
    ∃ v, env.lookup name = some v ∧ jsTrim v ≠ "" ∧ mustEnv env name = .ok v := by
  unfold absentOrBlank at h
  cases hl : env.lookup name with
  | none =>
    rw [hl] at h
    replace h : true = false := h
    exact Bool.noConfusion h
  | some v =>
    rw [hl] at h
    replace h : decide (jsTrim v = "") = false := h
    rw [decide_eq_false_iff_not] at h
    refine ⟨v, rfl, h, ?_⟩
    unfold mustEnv
    rw [hl]
    show (if jsTrim v = "" then
        Except.error (PipelineError.configError (missingEnvMsg name))
      else Except.ok v) = Except.ok v
    rw [if_neg h]

theorem run_of_config_error (w : World) (e : PipelineError)
    (h : resolveConfig w.env = .error e) : run w = ([], .error e) := by
  unfold run
  rw [h]

theorem run_of_config_ok (w : World) (cfg : Configuration)
    (h : resolveConfig w.env = .ok cfg) : run w = runStages w cfg := by
  unfold run
  rw [h]

theorem resolveConfig_error_isConfigError (env : Env) (e : PipelineError)
    (h : resolveConfig env = .error e) : e.isConfigError = true := by
  unfold resolveConfig at h
  cases h1 : mustEnv env "URL" with
  | error e1 =>
    simp only [h1] at h
    injection h with h2
    rw [← h2, mustEnv_error_msg _ _ _ h1]
    rfl
  | ok u =>
    simp only [h1] at h
    cases h2 : mustEnv env "Query" with
    | error e2 =>
      simp only [h2] at h
      injection h with h3
      rw [← h3, mustEnv_error_msg _ _ _ h2]
      rfl
    | ok q =>
      simp only [h2] at h
      cases h3 : mustEnv env "STORE" with
      | error e3 =>
        simp only [h3] at h
        injection h with h4
        rw [← h4, mustEnv_error_msg _ _ _ h3]
        rfl
      | ok s =>
        simp only [h3] at h
        split at h
        · exact Except.noConfusion h
        · split at h
          · exact Except.noConfusion h
          · injection h with h4
            rw [← h4]
            rfl

/-! ### Helper lemmas about the stages -/

theorem runStages_fetch_fail (w : World) (cfg : Configuration)
    (hbad : w.fetchResponse.ok = false) :
    runStages w cfg =
      ([.fetchReq (fetchRequest cfg.sourceUrl)],
       .error (.fetchError (fetchErrorMsg w.fetchResponse.status
         w.fetchResponse.statusText cfg.sourceUrl))) := by
  unfold runStages
  simp [hbad]

theorem runStages_parse_fail (w : World) (cfg : Configuration) (msg : String)
    (hok : w.fetchResponse.ok = true)
    (hp : w.parse (negotiateContentType w.fetchResponse.contentType) cfg.sourceUrl
        w.fetchResponse.body = .error msg) :
    runStages w cfg =
      ([.fetchReq (fetchRequest cfg.sourceUrl),
        .parseCall (negotiateContentType w.fetchResponse.contentType) cfg.sourceUrl],
       .error (.parseError msg)) := by
  unfold runStages
  simp [hok, hp]

theorem runStages_query_fail (w : World) (cfg : Configuration)
    (quads : List Quad) (msg : String)
    (hok : w.fetchResponse.ok = true)
    (hp : w.parse (negotiateContentType w.fetchResponse.contentType) cfg.sourceUrl
        w.fetchResponse.body = .ok quads)
    (hq : w.query cfg.query quads.eraseDups = .error msg) :
    runStages w cfg =
      ([.fetchReq (fetchRequest cfg.sourceUrl),
        .parseCall (negotiateContentType w.fetchResponse.contentType) cfg.sourceUrl,
        .queryCall cfg.query],
       .error (.queryError msg)) := by
  unfold runStages
  simp [hok, hp, hq]

theorem runStages_publish (w : World) (cfg : Configuration)
    (quads rquads : List Quad)
    (hok : w.fetchResponse.ok = true)
    (hp : w.parse (negotiateContentType w.fetchResponse.contentType) cfg.sourceUrl
        w.fetchResponse.body = .ok quads)
    (hq : w.query cfg.query quads.eraseDups = .ok rquads) :
    runStages w cfg =
      ([.fetchReq (fetchRequest cfg.sourceUrl),
        .parseCall (negotiateContentType w.fetchResponse.contentType) cfg.sourceUrl,
        .queryCall cfg.query,
        .publishReq (publishRequest cfg.storeUrl cfg.writeMethod (w.serialize rquads))],
       if w.writeResponse.ok = false then
         .error (.publishError (publishErrorMsg w.writeResponse.status
           w.writeResponse.statusText
           (match w.writeResponse.textResult with
            | .ok t => t
            | .error _ => "")))
       else
         .ok ()) := by
  unfold runStages
  by_cases hw : w.writeResponse.ok = false <;> simp [hok, hp, hq, hw]

theorem mustEnv_ok_some (env : Env) (name v : String)
    (hl : env.lookup name = some v) (hv : jsTrim v ≠ "") :
    mustEnv env name = .ok v := by
  unfold mustEnv
  rw [hl]
  show (if jsTrim v = "" then
      Except.error (PipelineError.configError (missingEnvMsg name))
    else Except.ok v) = Except.ok v
  rw [if_neg hv]

/-- A successful resolution records REPLACE exactly when the defaulted,
upper-cased `METHOD` is `"PUT"` and APPEND exactly when it is `"POST"`. -/
theorem resolveConfig_ok_method (env : Env) (cfg : Configuration)
    (h : resolveConfig env = .ok cfg) :
    (jsToUpper (methodOrDefault (env.lookup "METHOD")) = "PUT" ∧
       cfg.writeMethod = .REPLACE) ∨
    (jsToUpper (methodOrDefault (env.lookup "METHOD")) = "POST" ∧
       cfg.writeMethod = .APPEND) := by
  unfold resolveConfig at h
  cases h1 : mustEnv env "URL" with
  | error e1 =>
    rw [h1] at h
    exact Except.noConfusion h
  | ok u =>
    simp only [h1] at h
    cases h2 : mustEnv env "Query" with
    | error e2 =>
      rw [h2] at h
      exact Except.noConfusion h
    | ok q =>
      simp only [h2] at h
      cases h3 : mustEnv env "STORE" with
      | error e3 =>
        rw [h3] at h
        exact Except.noConfusion h
      | ok s =>
        simp only [h3] at h
        split at h
        · rename_i hm
          injection h with h4
          exact .inl ⟨hm, by rw [← h4]⟩
        · split at h
          · rename_i hm
            injection h with h4
            exact .inr ⟨hm, by rw [← h4]⟩
          · exact Except.noConfusion h

/-! ### Claims -/

/-- Claim C1: for every run of the pipeline that reaches the publish
stage (configuration resolved, source fetch succeeded, parse and query
succeeded), ResultPublisher issues exactly one HTTP request, addressed to
the configured store URL, whose verb is PUT when the configured write
method is REPLACE and POST when it is APPEND, whose headers are exactly
`Content-Type: text/turtle`, and whose body equals the Turtle
serialization of the result quad sequence. -/
theorem publish_issues_single_faithful_request (w : World) (cfg : Configuration)
    (quads rquads : List Quad)
    (hcfg : resolveConfig w.env = .ok cfg)
    (hok : w.fetchResponse.ok = true)
    (hp : w.parse (negotiateContentType w.fetchResponse.contentType) cfg.sourceUrl
        w.fetchResponse.body = .ok quads)
    (hq : w.query cfg.query quads.eraseDups = .ok rquads) :
    publishReqs (run w).1 =
      [{ url := cfg.storeUrl
       , method := cfg.writeMethod.httpVerb
       , headers := [("content-type", "text/turtle")]
       , body := some (w.serialize rquads) }] ∧
    WriteMethod.httpVerb .REPLACE = "PUT" ∧ WriteMethod.httpVerb .APPEND = "POST" := by
  rw [run_of_config_ok w cfg hcfg, runStages_publish w cfg quads rquads hok hp hq]
  exact ⟨rfl, rfl, rfl⟩

/-- Claim C2: for every fetch of the source URL whose response status is
not 2xx (`res.ok = false`), the run fails with the fetch error carrying
the HTTP status and reason phrase, and the parser (ingestion stage) is
never invoked. -/
theorem fetch_failure_aborts_without_ingestion (w : World) (cfg : Configuration)
    (hcfg : resolveConfig w.env = .ok cfg)
    (hbad : w.fetchResponse.ok = false) :
    (run w).2 = .error (.fetchError (fetchErrorMsg w.fetchResponse.status
        w.fetchResponse.statusText cfg.sourceUrl)) ∧
    hasParseCall (run w).1 = false := by
  rw [run_of_config_ok w cfg hcfg, runStages_fetch_fail w cfg hbad]
  exact ⟨rfl, rfl⟩

/-- Claim C7: when the query stage yields the empty quad sequence, the
publish request is still issued, with body the serialization of the empty
sequence; a successful write response yields a successful run, and a
publish error can only arise from a failing write response — never from
the empty result itself. -/
theorem empty_result_still_published (w : World) (cfg : Configuration)
    (quads : List Quad)
    (hcfg : resolveConfig w.env = .ok cfg)
    (hok : w.fetchResponse.ok = true)
    (hp : w.parse (negotiateContentType w.fetchResponse.contentType) cfg.sourceUrl
        w.fetchResponse.body = .ok quads)
    (hq : w.query cfg.query quads.eraseDups = .ok []) :
    publishReqs (run w).1 =
      [publishRequest cfg.storeUrl cfg.writeMethod (w.serialize [])] ∧
    (w.writeResponse.ok = true → (run w).2 = .ok ()) ∧
    (∀ e, (run w).2 = .error e → e.isPublishError = true →
      w.writeResponse.ok = false) := by
  rw [run_of_config_ok w cfg hcfg, runStages_publish w cfg quads [] hok hp hq]
  refine ⟨rfl, ?_, ?_⟩
  · intro hw
    rw [hw]
    simp
  · intro e he _
    by_cases hw : w.writeResponse.ok = false
    · exact hw
    · rw [if_neg hw] at he
      exact Except.noConfusion he

/-- Claim C8: for every publish response whose status is not 2xx and
whose body is retrievable, the run fails with the publish error whose
message carries the HTTP status code, the reason phrase and the response
body text. -/
theorem publish_failure_raises_error_with_details (w : World) (cfg : Configuration)
    (quads rquads : List Quad) (bodyText : String)
    (hcfg : resolveConfig w.env = .ok cfg)
    (hok : w.fetchResponse.ok = true)
    (hp : w.parse (negotiateContentType w.fetchResponse.contentType) cfg.sourceUrl
        w.fetchResponse.body = .ok quads)
    (hq : w.query cfg.query quads.eraseDups = .ok rquads)
    (hbad : w.writeResponse.ok = false)
    (htext : w.writeResponse.textResult = .ok bodyText) :
    (run w).2 = .error (.publishError (publishErrorMsg w.writeResponse.status
        w.writeResponse.statusText bodyText)) := by
  rw [run_of_config_ok w cfg hcfg, runStages_publish w cfg quads rquads hok hp hq]
  rw [if_pos hbad, htext]

/-- Claim C10: when the publish response indicates failure and reading
its body itself fails, the read error is swallowed and the publish error
is still raised, with the empty string in place of the body text. -/
theorem publish_body_read_failure_swallowed (w : World) (cfg : Configuration)
    (quads rquads : List Quad) (readErr : String)
    (hcfg : resolveConfig w.env = .ok cfg)
    (hok : w.fetchResponse.ok = true)
    (hp : w.parse (negotiateContentType w.fetchResponse.contentType) cfg.sourceUrl
        w.fetchResponse.body = .ok quads)
    (hq : w.query cfg.query quads.eraseDups = .ok rquads)
    (hbad : w.writeResponse.ok = false)
    (htext : w.writeResponse.textResult = .error readErr) :
    (run w).2 = .error (.publishError (publishErrorMsg w.writeResponse.status
        w.writeResponse.statusText "")) := by
  rw [run_of_config_ok w cfg hcfg, runStages_publish w cfg quads rquads hok hp hq]
  rw [if_pos hbad, htext]

/-- Claim C3 (amended): when `METHOD` is set to a NON-EMPTY value whose
upper-casing is neither `"PUT"` nor `"POST"`, the run fails with a config
error before any event (network call, parse, query) occurs; when `METHOD`
is unset — or set to the empty string, which the JavaScript `||` treats
as unset — a successful resolution has write method APPEND (POST). -/
theorem method_validation_and_default (w : World) :
    (∀ v, Env.lookup w.env "METHOD" = some v → v ≠ "" →
        jsToUpper v ≠ "PUT" → jsToUpper v ≠ "POST" →
        (run w).1 = [] ∧ ∃ m, (run w).2 = .error (.configError m)) ∧
    (∀ cfg, (Env.lookup w.env "METHOD" = none ∨ Env.lookup w.env "METHOD" = some "") →
        resolveConfig w.env = .ok cfg → cfg.writeMethod = .APPEND) := by
  constructor
  · intro v hv hne hput hpost
    cases hr : resolveConfig w.env with
    | ok cfg =>
      exfalso
      rcases resolveConfig_ok_method _ _ hr with ⟨hm, _⟩ | ⟨hm, _⟩ <;>
        · rw [hv] at hm
          simp only [methodOrDefault] at hm
          rw [if_neg hne] at hm
          first
          | exact hput hm
          | exact hpost hm
    | error e =>
      have hcfg := resolveConfig_error_isConfigError _ _ hr
      rw [run_of_config_error _ _ hr]
      cases e with
      | configError m => exact ⟨rfl, m, rfl⟩
      | fetchError m => exact Bool.noConfusion hcfg
      | parseError m => exact Bool.noConfusion hcfg
      | queryError m => exact Bool.noConfusion hcfg
      | publishError m => exact Bool.noConfusion hcfg
  · intro cfg hv hcfg
    rcases resolveConfig_ok_method _ _ hcfg with ⟨hm, _⟩ | ⟨_, ha⟩
    · exfalso
      rcases hv with h | h <;> rw [h] at hm <;> exact absurd hm (by decide)
    · exact ha

/-- Claim C4: when any of the required parameters `URL`, `Query`, `STORE`
is absent or blank, the run fails with a config error naming an offending
parameter, and no stage runs: the event trace is empty. -/
theorem missing_required_param_aborts (w : World)
    (h : absentOrBlank w.env "URL" = true ∨ absentOrBlank w.env "Query" = true ∨
        absentOrBlank w.env "STORE" = true) :
    (run w).1 = [] ∧
    ∃ p, (p = "URL" ∨ p = "Query" ∨ p = "STORE") ∧ absentOrBlank w.env p = true ∧
      (run w).2 = .error (.configError (missingEnvMsg p)) := by
  by_cases b1 : absentOrBlank w.env "URL" = true
  · have hc : resolveConfig w.env = .error (.configError (missingEnvMsg "URL")) := by
      unfold resolveConfig
      rw [mustEnv_error_of_blank _ _ b1]
    rw [run_of_config_error _ _ hc]
    exact ⟨rfl, "URL", .inl rfl, b1, rfl⟩
  · rw [Bool.not_eq_true] at b1
    obtain ⟨u, hu, hub, hmu⟩ := mustEnv_ok_of_not_blank _ _ b1
    by_cases b2 : absentOrBlank w.env "Query" = true
    · have hc : resolveConfig w.env = .error (.configError (missingEnvMsg "Query")) := by
        unfold resolveConfig
        simp only [hmu, mustEnv_error_of_blank _ _ b2]
      rw [run_of_config_error _ _ hc]
      exact ⟨rfl, "Query", .inr (.inl rfl), b2, rfl⟩
    · rw [Bool.not_eq_true] at b2
      obtain ⟨q, hq, hqb, hmq⟩ := mustEnv_ok_of_not_blank _ _ b2
      by_cases b3 : absentOrBlank w.env "STORE" = true
      · have hc : resolveConfig w.env = .error (.configError (missingEnvMsg "STORE")) := by
          unfold resolveConfig
          simp only [hmu, hmq, mustEnv_error_of_blank _ _ b3]
        rw [run_of_config_error _ _ hc]
        exact ⟨rfl, "STORE", .inr (.inr rfl), b3, rfl⟩
      · rw [Bool.not_eq_true] at b3
        rcases h with h | h | h
        · rw [b1] at h
          exact Bool.noConfusion h
        · rw [b2] at h
          exact Bool.noConfusion h
        · rw [b3] at h
          exact Bool.noConfusion h

/-- Claim C9 (amended): configuration resolution checks only presence and
non-blankness of `URL`, `Query`, `STORE` (and the `METHOD` value); it
performs no URI-syntax validation, so arbitrary non-blank values — in
particular values that are not absolute URIs — are accepted and reach the
pipeline stages. -/
theorem config_checks_presence_only (env : Env) (u q s : String)
    (hu : env.lookup "URL" = some u) (hub : jsTrim u ≠ "")
    (hq : env.lookup "Query" = some q) (hqb : jsTrim q ≠ "")
    (hs : env.lookup "STORE" = some s) (hsb : jsTrim s ≠ "")
    (hm : env.lookup "METHOD" = none) :
    resolveConfig env =
      .ok { sourceUrl := u, query := q, storeUrl := s, writeMethod := .APPEND } := by
  unfold resolveConfig
  simp only [mustEnv_ok_some env "URL" u hu hub, mustEnv_ok_some env "Query" q hq hqb,
    mustEnv_ok_some env "STORE" s hs hsb, hm]
  rw [show jsToUpper (methodOrDefault none) = "POST" from by decide]
  rw [if_neg (show ¬("POST" : String) = "PUT" from by decide)]
  rw [if_pos (show ("POST" : String) = "POST" from rfl)]

/-- Claim C5: the content type handed to the parser is exactly the
negotiated one: the response's content-type header with everything from
the first `';'` onward removed and surrounding whitespace trimmed, or
`"text/turtle"` when the header is absent or the stripped value is
empty. -/
theorem parser_content_type_negotiation (w : World) (ct base : String)
    (hmem : Event.parseCall ct base ∈ (run w).1) :
    ct = negotiateContentType w.fetchResponse.contentType ∧
    (w.fetchResponse.contentType = none → ct = "text/turtle") ∧
    (∀ hdr, w.fetchResponse.contentType = some hdr →
        (jsTrim (beforeSemicolon hdr) = "" → ct = "text/turtle") ∧
        (jsTrim (beforeSemicolon hdr) ≠ "" → ct = jsTrim (beforeSemicolon hdr))) := by
  have hct : ct = negotiateContentType w.fetchResponse.contentType := by
    cases hc : resolveConfig w.env with
    | error e =>
      rw [run_of_config_error _ _ hc] at hmem
      simp at hmem
    | ok cfg =>
      rw [run_of_config_ok _ _ hc] at hmem
      by_cases hok : w.fetchResponse.ok = true
      · cases hp : w.parse (negotiateContentType w.fetchResponse.contentType)
            cfg.sourceUrl w.fetchResponse.body with
        | error msg =>
          rw [runStages_parse_fail w cfg msg hok hp] at hmem
          simp at hmem
          exact hmem.1
        | ok quads =>
          cases hq : w.query cfg.query quads.eraseDups with
          | error msg =>
            rw [runStages_query_fail w cfg quads msg hok hp hq] at hmem
            simp at hmem
            exact hmem.1
          | ok rquads =>
            rw [runStages_publish w cfg quads rquads hok hp hq] at hmem
            simp at hmem
            exact hmem.1
      · rw [Bool.not_eq_true] at hok
        rw [runStages_fetch_fail w cfg hok] at hmem
        simp at hmem
  refine ⟨hct, ?_, ?_⟩
  · intro hn
    rw [hct, hn]
    rfl
  · intro hdr hsome
    constructor
    · intro hblank
      rw [hct, hsome]
      show (if jsTrim (beforeSemicolon hdr) = "" then "text/turtle"
        else jsTrim (beforeSemicolon hdr)) = "text/turtle"
      rw [if_pos hblank]
    · intro hne
      rw [hct, hsome]
      show (if jsTrim (beforeSemicolon hdr) = "" then "text/turtle"
        else jsTrim (beforeSemicolon hdr)) = jsTrim (beforeSemicolon hdr)
      rw [if_neg hne]

/-- Claim C6: every fetch request the pipeline issues is an HTTP GET to
the configured source URL whose Accept header is exactly the six RDF
formats in descending preference order followed by the two low-preference
wildcard fallbacks. -/
theorem fetch_request_is_get_with_accept (w : World) (r : Request)
    (hmem : Event.fetchReq r ∈ (run w).1) :
    r.method = "GET" ∧
    r.headers = [("accept", "text/turtle, application/n-triples, application/ld+json, application/rdf+xml, application/trig, application/n-quads, application/octet-stream;q=0.1, */*;q=0.01")] ∧
    ∃ cfg, resolveConfig w.env = .ok cfg ∧ r.url = cfg.sourceUrl := by
  have hshape : ∃ cfg, resolveConfig w.env = .ok cfg ∧ r = fetchRequest cfg.sourceUrl := by
    cases hc : resolveConfig w.env with
    | error e =>
      rw [run_of_config_error _ _ hc] at hmem
      simp at hmem
    | ok cfg =>
      refine ⟨cfg, rfl, ?_⟩
      rw [run_of_config_ok _ _ hc] at hmem
      by_cases hok : w.fetchResponse.ok = true
      · cases hp : w.parse (negotiateContentType w.fetchResponse.contentType)
            cfg.sourceUrl w.fetchResponse.body with
        | error msg =>
          rw [runStages_parse_fail w cfg msg hok hp] at hmem
          simp at hmem
          exact hmem
        | ok quads =>
          cases hq : w.query cfg.query quads.eraseDups with
          | error msg =>
            rw [runStages_query_fail w cfg quads msg hok hp hq] at hmem
            simp at hmem
            exact hmem
          | ok rquads =>
            rw [runStages_publish w cfg quads rquads hok hp hq] at hmem
            simp at hmem
            exact hmem
      · rw [Bool.not_eq_true] at hok
        rw [runStages_fetch_fail w cfg hok] at hmem
        simp at hmem
        exact hmem
  obtain ⟨cfg, hcfg, hr⟩ := hshape
  subst hr
  refine ⟨rfl, ?_, cfg, hcfg, rfl⟩
  show [("accept", acceptHeader)] = _
  rw [show acceptHeader = "text/turtle, application/n-triples, application/ld+json, application/rdf+xml, application/trig, application/n-quads, application/octet-stream;q=0.1, */*;q=0.01" from by decide]

/-! ### Concrete runs used to instantiate the theorems -/

/-- A demonstration quad. -/
def qDemo : Quad :=
  ⟨"http://example.org/a", "http://example.org/b", "http://example.org/c", ""⟩

/-- An environment with all parameters set and `METHOD=put`. -/
def envPut : Env :=
  [("URL", "http://example.org/data.ttl"),
   ("Query", "CONSTRUCT { ?s ?p ?o } WHERE { ?s ?p ?o }"),
   ("STORE", "http://example.org/store"),
   ("METHOD", "put")]

/-- The configuration `envPut` resolves to. -/
def cfgPut : Configuration :=
  { sourceUrl := "http://example.org/data.ttl"
  , query := "CONSTRUCT { ?s ?p ?o } WHERE { ?s ?p ?o }"
  , storeUrl := "http://example.org/store"
  , writeMethod := .REPLACE }

/-- A run in which every stage succeeds. -/
def okWorld : World :=
  { env := envPut
  , fetchResponse :=
      { status := 200, statusText := "OK"
      , contentType := some "text/turtle; charset=utf-8", body := "<a> <b> <c> ." }
  , parse := fun _ _ _ => .ok [qDemo]
  , query := fun _ _ => .ok [qDemo]
  , serialize := fun _ =>
      "<http://example.org/a> <http://example.org/b> <http://example.org/c> ."
  , writeResponse := { status := 201, statusText := "Created", textResult := .ok "" } }

/-- The same run with a 404 source response. -/
def notFoundWorld : World :=
  { okWorld with fetchResponse :=
      { status := 404, statusText := "Not Found", contentType := none, body := "" } }

/-- A run whose query result is empty and whose write succeeds with 204. -/
def emptyResultWorld : World :=
  { okWorld with
      query := fun _ _ => .ok []
    , serialize := fun _ => ""
    , writeResponse := { status := 204, statusText := "No Content", textResult := .ok "" } }

/-- The configuration of `envPut` with the default APPEND method. -/
def cfgAppend : Configuration :=
  { cfgPut with writeMethod := .APPEND }

/-- A run whose publish response fails with a retrievable body. -/
def publishFailWorld : World :=
  { okWorld with writeResponse :=
      { status := 500, statusText := "Internal Server Error", textResult := .ok "boom" } }

/-- A run whose publish response fails and whose body read also fails. -/
def publishFailNoBodyWorld : World :=
  { okWorld with writeResponse :=
      { status := 502, statusText := "Bad Gateway", textResult := .error "read failed" } }

/-- The environment of `envPut` with `METHOD` set to the empty string. -/
def envMethodEmpty : Env :=
  [("URL", "http://example.org/data.ttl"),
   ("Query", "CONSTRUCT { ?s ?p ?o } WHERE { ?s ?p ?o }"),
   ("STORE", "http://example.org/store"),
   ("METHOD", "")]

/-- The environment of `envPut` with `METHOD=DELETE`. -/
def envMethodDelete : Env :=
  [("URL", "http://example.org/data.ttl"),
   ("Query", "CONSTRUCT { ?s ?p ?o } WHERE { ?s ?p ?o }"),
   ("STORE", "http://example.org/store"),
   ("METHOD", "DELETE")]

def methodDeleteWorld : World :=
  { okWorld with env := envMethodDelete }

/-- The environment of `envPut` without `METHOD`. -/
def envNoMethod : Env :=
  [("URL", "http://example.org/data.ttl"),
   ("Query", "CONSTRUCT { ?s ?p ?o } WHERE { ?s ?p ?o }"),
   ("STORE", "http://example.org/store")]

def noMethodWorld : World :=
  { okWorld with env := envNoMethod }

/-- An environment whose `Query` is blank (whitespace only). -/
def envBlankQuery : Env :=
  [("URL", "http://example.org/data.ttl"),
   ("Query", "   "),
   ("STORE", "http://example.org/store")]

def blankQueryWorld : World :=
  { okWorld with env := envBlankQuery }

/-- An environment whose `URL` and `STORE` contain no colon, hence are
not absolute URIs. -/
def envNoColon : Env :=
  [("URL", "not-an-absolute-uri"),
   ("Query", "CONSTRUCT { ?s ?p ?o } WHERE { ?s ?p ?o }"),
   ("STORE", "relative/store/path")]

def noColonWorld : World :=
  { okWorld with env := envNoColon }

/-! ### Counterexamples and witnesses -/

/-- Claim C3, counterexample: with `METHOD` set to the empty string — a
set value that is neither PUT nor POST under any case folding —
configuration resolution does not fail with a config error: the
JavaScript fallback `process.env.METHOD || "POST"` treats the falsy empty
string like an unset variable, and resolution succeeds with the APPEND
(POST) method. -/
theorem method_empty_string_counterexample :
    Env.lookup envMethodEmpty "METHOD" = some "" ∧
    jsToUpper "" ≠ "PUT" ∧ jsToUpper "" ≠ "POST" ∧
    resolveConfig envMethodEmpty =
      .ok { sourceUrl := "http://example.org/data.ttl"
          , query := "CONSTRUCT { ?s ?p ?o } WHERE { ?s ?p ?o }"
          , storeUrl := "http://example.org/store"
          , writeMethod := .APPEND } :=
  ⟨rfl, by decide, by decide, by decide⟩

/-- Claim C9, counterexample: `URL` and `STORE` values without any colon
— hence not absolute URIs, since every RFC 3986 absolute URI contains the
scheme separator `':'` — pass configuration resolution unchanged, and the
run proceeds to issue the fetch request instead of failing with a config
error before any stage. -/
theorem non_absolute_uri_accepted_counterexample :
    containsColon "not-an-absolute-uri" = false ∧
    containsColon "relative/store/path" = false ∧
    resolveConfig envNoColon =
      .ok { sourceUrl := "not-an-absolute-uri"
          , query := "CONSTRUCT { ?s ?p ?o } WHERE { ?s ?p ?o }"
          , storeUrl := "relative/store/path"
          , writeMethod := .APPEND } ∧
    (run noColonWorld).1.head? = some (.fetchReq (fetchRequest "not-an-absolute-uri")) :=
  ⟨by decide, by decide, by decide, by decide⟩

/-- Witness for C1 at a concrete successful run with `METHOD=put`. -/
theorem publish_issues_single_faithful_request_witness :
    publishReqs (run okWorld).1 =
      [{ url := "http://example.org/store", method := "PUT"
       , headers := [("content-type", "text/turtle")]
       , body := some "<http://example.org/a> <http://example.org/b> <http://example.org/c> ." }] ∧
    WriteMethod.httpVerb .REPLACE = "PUT" ∧ WriteMethod.httpVerb .APPEND = "POST" :=
  publish_issues_single_faithful_request okWorld cfgPut [qDemo] [qDemo]
    (by decide) (by decide) rfl rfl

/-- Witness for C2 at a 404 source response. -/
theorem fetch_failure_aborts_without_ingestion_witness :
    (run notFoundWorld).2 =
      .error (.fetchError (fetchErrorMsg 404 "Not Found" "http://example.org/data.ttl")) ∧
    hasParseCall (run notFoundWorld).1 = false :=
  fetch_failure_aborts_without_ingestion notFoundWorld cfgPut (by decide) (by decide)

/-- Witness for C3 at `METHOD=DELETE` (config error, no event) and at an
unset `METHOD` (APPEND default). -/
theorem method_validation_and_default_witness :
    (run methodDeleteWorld).1 = [] ∧ Configuration.writeMethod cfgAppend = .APPEND :=
  ⟨((method_validation_and_default methodDeleteWorld).1 "DELETE"
      (by decide) (by decide) (by decide) (by decide)).1,
   (method_validation_and_default noMethodWorld).2 cfgAppend (.inl (by decide)) (by decide)⟩

/-- Witness for C4 at a blank `Query`. -/
theorem missing_required_param_aborts_witness :
    absentOrBlank blankQueryWorld.env "Query" = true ∧ (run blankQueryWorld).1 = [] :=
  ⟨by decide, (missing_required_param_aborts blankQueryWorld (.inr (.inl (by decide)))).1⟩

/-- Witness for C5 at a response with header `text/turtle; charset=utf-8`. -/
theorem parser_content_type_negotiation_witness :
    Event.parseCall "text/turtle" "http://example.org/data.ttl" ∈ (run okWorld).1 ∧
    "text/turtle" = negotiateContentType (some "text/turtle; charset=utf-8") :=
  ⟨by decide,
   (parser_content_type_negotiation okWorld "text/turtle" "http://example.org/data.ttl"
      (by decide)).1⟩

/-- Witness for C6 at the concrete successful run. -/
theorem fetch_request_is_get_with_accept_witness :
    Event.fetchReq (fetchRequest "http://example.org/data.ttl") ∈ (run okWorld).1 ∧
    (fetchRequest "http://example.org/data.ttl").method = "GET" ∧
    (fetchRequest "http://example.org/data.ttl").headers =
      [("accept", "text/turtle, application/n-triples, application/ld+json, application/rdf+xml, application/trig, application/n-quads, application/octet-stream;q=0.1, */*;q=0.01")] :=
  ⟨by decide,
   (fetch_request_is_get_with_accept okWorld (fetchRequest "http://example.org/data.ttl")
      (by decide)).1,
   (fetch_request_is_get_with_accept okWorld (fetchRequest "http://example.org/data.ttl")
      (by decide)).2.1⟩

/-- Witness for C7 at an empty query result: the publish request is still
issued (with the serialization of the empty sequence as body) and the run
succeeds. -/
theorem empty_result_still_published_witness :
    publishReqs (run emptyResultWorld).1 =
      [publishRequest "http://example.org/store" .REPLACE ""] ∧
    (run emptyResultWorld).2 = .ok () := by
  have h := empty_result_still_published emptyResultWorld cfgPut [qDemo]
    (by decide) (by decide) rfl rfl
  exact ⟨h.1, h.2.1 (by decide)⟩

/-- Witness for C8 at a 500 publish response with body `boom`. -/
theorem publish_failure_raises_error_with_details_witness :
    (run publishFailWorld).2 =
      .error (.publishError (publishErrorMsg 500 "Internal Server Error" "boom")) :=
  publish_failure_raises_error_with_details publishFailWorld cfgPut [qDemo] [qDemo] "boom"
    (by decide) (by decide) rfl rfl (by decide) rfl

/-- Witness for C10 at a 502 publish response whose body read fails. -/
theorem publish_body_read_failure_swallowed_witness :
    (run publishFailNoBodyWorld).2 =
      .error (.publishError (publishErrorMsg 502 "Bad Gateway" "")) :=
  publish_body_read_failure_swallowed publishFailNoBodyWorld cfgPut [qDemo] [qDemo] "read failed"
    (by decide) (by decide) rfl rfl (by decide) rfl

/-- Witness for C9 (amended) at the colon-free environment. -/
theorem config_checks_presence_only_witness :
    resolveConfig envNoColon =
      .ok { sourceUrl := "not-an-absolute-uri"
          , query := "CONSTRUCT { ?s ?p ?o } WHERE { ?s ?p ?o }"
          , storeUrl := "relative/store/path"
          , writeMethod := .APPEND } :=
  config_checks_presence_only envNoColon "not-an-absolute-uri"
    "CONSTRUCT { ?s ?p ?o } WHERE { ?s ?p ?o }" "relative/store/path"
    (by decide) (by decide) (by decide) (by decide) (by decide) (by decide) (by decide)

end Pipeline
